import Mathlib

/-
  Shallow embedding of the NoteQuarry UI front-end
  (src/ui/mainwindow.h, src/ui/mainwindow.cpp, src/ui/qt_bridge.cpp).

  Text is modelled as List Char.  Each widget class becomes a state
  structure whose fields mirror the C++ members that the claims touch;
  each member function becomes a Lean function on that structure.
  Qt signal emission is modelled by appending to an emissions list;
  the signal/slot connections made in MainWindow::setupUI become an
  explicit dispatch table, so that a signal with no connected slot
  (such as BookEditor::pageChanged) visibly goes nowhere.
-/

namespace NoteQuarry

/-- Whitespace characters as matched by QChar::isSpace / the regex backslash-s
    on the ASCII range: space, tab, newline, carriage return, vertical tab,
    form feed.  Used both by QString::trimmed and by the word-count split. -/
def wsChar (c : Char) : Bool :=
  c = ' ' || c = '\t' || c = '\n' || c = '\r' || c = '\x0b' || c = '\x0c'

/-- QString::trimmed: strip leading and trailing whitespace. -/
def trimmed (s : List Char) : List Char :=
  (((s.dropWhile wsChar).reverse).dropWhile wsChar).reverse

/-- QString::split(QChar sep) with the default KeepEmptyParts behaviour:
    split at every occurrence of sep.  Used by qt_register_mode_selected
    to parse the "MODE|TITLE" packed string. -/
def splitChar (sep : Char) : List Char → List (List Char)
  | [] => [[]]
  | c :: cs =>
    if c = sep then [] :: splitChar sep cs
    else
      match splitChar sep cs with
      | [] => [[c]]
      | p :: ps => (c :: p) :: ps

mutual
/-- QString::split(QRegularExpression("\\s+")): split at every maximal run
    of whitespace, keeping the (possibly empty) first and last parts. -/
def splitWsRun : List Char → List (List Char)
  | [] => [[]]
  | c :: cs =>
    if wsChar c then [] :: splitWsInRun cs
    else
      match splitWsRun cs with
      | [] => [[c]]
      | p :: ps => (c :: p) :: ps

/-- Helper for splitWsRun: the scanner is inside a whitespace run and keeps
    consuming whitespace greedily before starting the next part. -/
def splitWsInRun : List Char → List (List Char)
  | [] => [[]]
  | c :: cs =>
    if wsChar c then splitWsInRun cs
    else
      match splitWsRun cs with
      | [] => [[c]]
      | p :: ps => (c :: p) :: ps
end

/-- The word count computed by the contentChanged lambda in
    MainWindow::setupUI:
    text.split(QRegularExpression("\\s+"), Qt::SkipEmptyParts).count(). -/
def wordCountQt (t : List Char) : Nat :=
  ((splitWsRun t).filter (fun p => !p.isEmpty)).length

/-- Modelled from the spec: counts the maximal non-whitespace runs of the
    remaining text given the character immediately before it (a run starts
    at a non-whitespace character preceded by whitespace). -/
def runStartsAfter (prev : Char) : List Char → Nat
  | [] => 0
  | c :: cs => (if !wsChar c && wsChar prev then 1 else 0) + runStartsAfter c cs

/-- Modelled from the spec: "the number of maximal non-whitespace runs in T".
    A maximal run is counted at the position of its first character: a
    non-whitespace character at the start of the text or one preceded by a
    whitespace character. -/
def runStarts : List Char → Nat
  | [] => 0
  | c :: cs => (if wsChar c then 0 else 1) + runStartsAfter c cs

-- ===================== PasswordDialog =====================

/-- Outward signal of PasswordDialog. -/
inductive PwEvent where
  | passwordSubmitted (password : List Char)
  deriving DecidableEq, Repr

/-- State of PasswordDialog: the line edit text, whether the (modal) dialog
    is still open, the error label text and error widget visibility, whether
    QApplication::quit has been requested, and the emitted signals. -/
structure PwState where
  input : List Char
  isOpen : Bool
  errorText : List Char
  errorVisible : Bool
  quitRequested : Bool
  emissions : List PwEvent
  deriving DecidableEq, Repr

/-- PasswordDialog as first shown by the MainWindow constructor. -/
def pwInit : PwState :=
  { input := [], isOpen := true, errorText := [], errorVisible := false,
    quitRequested := false, emissions := [] }

/-- The literal local error text in PasswordDialog::accept. -/
def pwEmptyMsg : List Char :=
  "Password cannot be empty".data

namespace PasswordDialog

/-- PasswordDialog::setErrorMessage. -/
def setErrorMessage (message : List Char) (s : PwState) : PwState :=
  { s with errorText := message }

/-- PasswordDialog::setShowError. -/
def setShowError (show_ : Bool) (s : PwState) : PwState :=
  { s with errorVisible := show_ }

/-- PasswordDialog::accept (the override): trim the input; if empty, set the
    local error and keep the dialog open; otherwise emit passwordSubmitted
    with the trimmed password and close via QDialog::accept. -/
def accept (s : PwState) : PwState :=
  let password := trimmed s.input
  if password.isEmpty then
    setShowError true (setErrorMessage pwEmptyMsg s)
  else
    { s with emissions := s.emissions ++ [.passwordSubmitted password],
             isOpen := false }

/-- Pressing Enter in the password field: the line edit's returnPressed
    signal is connected to PasswordDialog::accept. -/
def submitViaEnter : PwState → PwState := accept

/-- Clicking the Unlock button: its clicked signal is connected to
    PasswordDialog::accept. -/
def submitViaUnlock : PwState → PwState := accept

/-- QDialog::reject (not overridden): closes the dialog with result
    Rejected; it does not quit the application and emits nothing. -/
def reject (s : PwState) : PwState :=
  { s with isOpen := false }

/-- PasswordDialog::keyPressEvent on the Escape key: calls reject(). -/
def keyPressEscape : PwState → PwState := reject

/-- Clicking the Exit button: its clicked signal is connected both to a
    lambda calling QApplication::quit and to QDialog::reject. -/
def exitButtonClicked (s : PwState) : PwState :=
  reject { s with quitRequested := true }

/-- Clicking the frameless-window close button: its clicked signal is
    connected to a lambda calling QApplication::quit. -/
def closeButtonClicked (s : PwState) : PwState :=
  { s with quitRequested := true }

end PasswordDialog

-- ===================== ModeSelectionDialog =====================

/-- Outward signal of ModeSelectionDialog. -/
inductive ModeEvent where
  | modeSelected (mode title : List Char)
  deriving DecidableEq, Repr

/-- The mode strings passed by onBookModeClicked / onNoteModeClicked. -/
def bookModeStr : List Char :=
  "BOOK".data

/-- The other mode string. -/
def noteModeStr : List Char :=
  "NOTE".data

/-- QDialog result code. -/
inductive DialogResult where
  | Accepted
  | Rejected
  deriving DecidableEq, Repr

/-- State of ModeSelectionDialog: title line edit, dialog result, whether
    the dialog is open, whether the empty-title warning box was shown, and
    the emitted signals. -/
structure ModeState where
  titleInput : List Char
  result : DialogResult
  isOpen : Bool
  warningShown : Bool
  emissions : List ModeEvent
  deriving DecidableEq, Repr

/-- ModeSelectionDialog at the start of exec(): QDialog::exec resets the
    result to Rejected before showing the dialog. -/
def modeInit (title : List Char) : ModeState :=
  { titleInput := title, result := .Rejected, isOpen := true,
    warningShown := false, emissions := [] }

namespace ModeSelectionDialog

/-- QDialog::accept: result Accepted, dialog closes. -/
def acceptDialog (s : ModeState) : ModeState :=
  { s with result := .Accepted, isOpen := false }

/-- ModeSelectionDialog::validateAndAccept: trim the title; if empty show
    the warning box and return (dialog stays open), else accept(). -/
def validateAndAccept (s : ModeState) : ModeState :=
  let title := trimmed s.titleInput
  if title.isEmpty then
    { s with warningShown := true }
  else
    acceptDialog s

/-- ModeSelectionDialog::onBookModeClicked: validateAndAccept, then emit
    modeSelected("BOOK", raw title text) when the result is Accepted. -/
def onBookModeClicked (s : ModeState) : ModeState :=
  let s' := validateAndAccept s
  match s'.result with
  | .Accepted =>
      { s' with emissions := s'.emissions ++ [.modeSelected bookModeStr s'.titleInput] }
  | .Rejected => s'

/-- ModeSelectionDialog::onNoteModeClicked: same with mode "NOTE". -/
def onNoteModeClicked (s : ModeState) : ModeState :=
  let s' := validateAndAccept s
  match s'.result with
  | .Accepted =>
      { s' with emissions := s'.emissions ++ [.modeSelected noteModeStr s'.titleInput] }
  | .Rejected => s'

end ModeSelectionDialog

/-- MainWindow::onModeDialogAccepted packs the pair into one string:
    data = mode + "|" + title, emitted as modeSelected(data, ""). -/
def modeRelayData (mode title : List Char) : List Char :=
  mode ++ '|' :: title

/-- The lambda installed by qt_register_mode_selected: split the packed
    data on the pipe; if it has at least two parts, deliver (parts[0],
    parts[1]) to the backend callback, otherwise deliver nothing. -/
def qtModeSelectedDeliver (data : List Char) : Option (List Char × List Char) :=
  let parts := splitChar '|' data
  if 2 ≤ parts.length then some (parts.getD 0 [], parts.getD 1 []) else none

-- ===================== BookEditor =====================

/-- Signals of the BookEditor widget (mainwindow.h). -/
inductive BookSignal where
  | backClicked
  | saveClicked (content : List Char)
  | previousPage
  | nextPage
  | addPage
  | insertImage
  | contentChanged (text : List Char)
  | pageChanged (newPage : Int)
  deriving DecidableEq, Repr

/-- State of the BookEditor widget: the QTextEdit plain text, the page /
    total / word-count members, the QSpinBox value and range, the enabled
    state of the Previous / Next buttons and the emitted signals. -/
structure BookEditorState where
  titleLabel : List Char
  content : List Char
  m_currentPage : Int
  m_totalPages : Int
  m_wordCount : Int
  spinValue : Int
  spinMin : Int
  spinMax : Int
  prevEnabled : Bool
  nextEnabled : Bool
  emissions : List BookSignal
  deriving DecidableEq, Repr

/-- BookEditor after its constructor / setupUI: members start at page 1,
    total 1, word count 0; the spin box has minimum 1, the QSpinBox default
    maximum 99, value clamped up to the minimum 1; updateNavigationButtons
    has run (both buttons disabled at 1/1). -/
def bookInit : BookEditorState :=
  { titleLabel := [], content := [], m_currentPage := 1, m_totalPages := 1,
    m_wordCount := 0, spinValue := 1, spinMin := 1, spinMax := 99,
    prevEnabled := false, nextEnabled := false, emissions := [] }

namespace BookEditor

/-- BookEditor::setEntryTitle. -/
def setEntryTitle (title : List Char) (s : BookEditorState) : BookEditorState :=
  { s with titleLabel := title }

/-- BookEditor::onContentChanged: emit contentChanged(toPlainText()). -/
def onContentChanged (s : BookEditorState) : BookEditorState :=
  { s with emissions := s.emissions ++ [.contentChanged s.content] }

/-- BookEditor::setContent: block the editor's signals, setPlainText (so
    the text replacement itself fires no textChanged), unblock, then call
    onContentChanged() explicitly. -/
def setContent (content : List Char) (s : BookEditorState) : BookEditorState :=
  onContentChanged { s with content := content }

/-- BookEditor::getContent: toPlainText(). -/
def getContent (s : BookEditorState) : List Char :=
  s.content

/-- BookEditor::updateNavigationButtons: Previous enabled iff
    m_currentPage > 1, Next enabled iff m_currentPage < m_totalPages. -/
def updateNavigationButtons (s : BookEditorState) : BookEditorState :=
  { s with prevEnabled := decide (s.m_currentPage > 1),
           nextEnabled := decide (s.m_currentPage < s.m_totalPages) }

/-- BookEditor::onPageSpinBoxChanged (slot of the spin box's valueChanged):
    when the value differs from m_currentPage, update it and emit
    pageChanged(value). -/
def onPageSpinBoxChanged (value : Int) (s : BookEditorState) : BookEditorState :=
  if value ≠ s.m_currentPage then
    { s with m_currentPage := value,
             emissions := s.emissions ++ [.pageChanged value] }
  else s

/-- BookEditor::setCurrentPage: store the page, then set the spin box value
    with its signals blocked (QSpinBox::setValue clamps to the current
    range; the blocked signal means onPageSpinBoxChanged does not run),
    then updateNavigationButtons (updatePageInfo is display only). -/
def setCurrentPage (page : Int) (s : BookEditorState) : BookEditorState :=
  let s1 := { s with m_currentPage := page }
  let s2 := { s1 with spinValue := max s1.spinMin (min s1.spinMax page) }
  updateNavigationButtons s2

/-- BookEditor::setTotalPages: store the total, then setMaximum(total) on
    the spin box.  QSpinBox::setMaximum lowers the minimum when the new
    maximum is below it and clamps the current value into the new range;
    the clamp fires valueChanged — the signals are NOT blocked here — so
    onPageSpinBoxChanged runs.  Then updateNavigationButtons. -/
def setTotalPages (total : Int) (s : BookEditorState) : BookEditorState :=
  let s1 := { s with m_totalPages := total }
  let s2 := { s1 with spinMax := total, spinMin := min s1.spinMin total }
  let s3 :=
    if s2.spinValue > total then
      onPageSpinBoxChanged total { s2 with spinValue := total }
    else s2
  updateNavigationButtons s3

/-- BookEditor::setWordCount (updateWordCount only restyles the label). -/
def setWordCount (count : Int) (s : BookEditorState) : BookEditorState :=
  { s with m_wordCount := count }

/-- A user keystroke in the book editor's QTextEdit: the text changes and
    QTextEdit::textChanged fires (signals not blocked), whose connected
    slot is BookEditor::onContentChanged. -/
def keystroke (c : Char) (s : BookEditorState) : BookEditorState :=
  onContentChanged { s with content := s.content ++ [c] }

end BookEditor

-- ===================== NoteEditor =====================

/-- Signals of the NoteEditor widget (mainwindow.h). -/
inductive NoteSignal where
  | backClicked
  | saveClicked (content : List Char)
  | addCheckbox
  | insertImage
  | contentChanged (text : List Char)
  deriving DecidableEq, Repr

/-- State of the NoteEditor widget. -/
structure NoteEditorState where
  titleLabel : List Char
  content : List Char
  emissions : List NoteSignal
  deriving DecidableEq, Repr

/-- NoteEditor after its constructor. -/
def noteInit : NoteEditorState :=
  { titleLabel := [], content := [], emissions := [] }

namespace NoteEditor

/-- NoteEditor::setEntryTitle. -/
def setEntryTitle (title : List Char) (s : NoteEditorState) : NoteEditorState :=
  { s with titleLabel := title }

/-- NoteEditor::onContentChanged: emit contentChanged(toPlainText()). -/
def onContentChanged (s : NoteEditorState) : NoteEditorState :=
  { s with emissions := s.emissions ++ [.contentChanged s.content] }

/-- NoteEditor::setContent: block signals, setPlainText, unblock; unlike
    BookEditor::setContent it does NOT re-fire the changed handler. -/
def setContent (content : List Char) (s : NoteEditorState) : NoteEditorState :=
  { s with content := content }

/-- NoteEditor::getContent. -/
def getContent (s : NoteEditorState) : List Char :=
  s.content

/-- A user keystroke in the note editor's QTextEdit: textChanged fires and
    its connected slot is NoteEditor::onContentChanged. -/
def keystroke (c : Char) (s : NoteEditorState) : NoteEditorState :=
  onContentChanged { s with content := s.content ++ [c] }

end NoteEditor

-- ===================== MainWindow =====================

/-- Which widget the QStackedWidget currently shows. -/
inductive ViewId where
  | List
  | Book
  | Note
  deriving DecidableEq, Repr

/-- Signals of MainWindow (mainwindow.h), the ones the bridge forwards. -/
inductive MainSignal where
  | passwordSubmitted (password : List Char)
  | newEntryClicked
  | modeSelected (data unused : List Char)
  | entrySelected (index : Int)
  | deleteEntryClicked (index : Int)
  | saveContent (content : List Char)
  | backToList
  | searchEntries (query : List Char)
  | clearSearch
  | pageChanged (newPage : Int)
  | addNewPage
  | insertImage
  | addCheckbox
  deriving DecidableEq, Repr

/-- State of MainWindow: the stacked widget's current view, its own page /
    total / word-count members (held separately from BookEditor's copies),
    the entry list mirror, both editors, and the emitted signals. -/
structure MainWindowState where
  currentView : ViewId
  m_currentPage : Int
  m_totalPages : Int
  m_wordCount : Int
  m_currentEntryTitle : List Char
  m_entryList : List (List Char)
  m_passwordDialog : Option PwState
  bookEditor : BookEditorState
  noteEditor : NoteEditorState
  emissions : List MainSignal
  deriving DecidableEq, Repr

/-- MainWindow after its constructor: page 1, total 1, word count 0, empty
    entry list, list view current; the password dialog object persists
    after the constructor's exec. -/
def mainWindowInit : MainWindowState :=
  { currentView := .List, m_currentPage := 1, m_totalPages := 1,
    m_wordCount := 0, m_currentEntryTitle := [], m_entryList := [],
    m_passwordDialog := some pwInit, bookEditor := bookInit,
    noteEditor := noteInit, emissions := [] }

namespace MainWindow

/-- The lambda connected to BookEditor::contentChanged in setupUI:
    m_wordCount = text.split(regex whitespace, SkipEmptyParts).count();
    m_bookEditor->setWordCount(m_wordCount). -/
def contentChangedLambda (text : List Char) (s : MainWindowState) : MainWindowState :=
  let wc : Int := wordCountQt text
  { s with m_wordCount := wc,
           bookEditor := BookEditor.setWordCount wc s.bookEditor }

/-- MainWindow::showListView. -/
def showListView (s : MainWindowState) : MainWindowState :=
  { s with currentView := .List }

/-- MainWindow::showBookEditor (declared for the bridge, see qt_bridge). -/
def showBookEditor (s : MainWindowState) : MainWindowState :=
  { s with currentView := .Book }

/-- MainWindow::showNoteEditor. -/
def showNoteEditor (s : MainWindowState) : MainWindowState :=
  { s with currentView := .Note }

/-- MainWindow::onPreviousPage: emit pageChanged(m_currentPage - 1) only
    when m_currentPage > 1. -/
def onPreviousPage (s : MainWindowState) : MainWindowState :=
  if s.m_currentPage > 1 then
    { s with emissions := s.emissions ++ [.pageChanged (s.m_currentPage - 1)] }
  else s

/-- MainWindow::onNextPage: emit pageChanged(m_currentPage + 1) only when
    m_currentPage < m_totalPages. -/
def onNextPage (s : MainWindowState) : MainWindowState :=
  if s.m_currentPage < s.m_totalPages then
    { s with emissions := s.emissions ++ [.pageChanged (s.m_currentPage + 1)] }
  else s

/-- MainWindow::onAddPage: emit addNewPage unconditionally. -/
def onAddPage (s : MainWindowState) : MainWindowState :=
  { s with emissions := s.emissions ++ [.addNewPage] }

/-- MainWindow::onBackToList: showListView, then emit backToList. -/
def onBackToList (s : MainWindowState) : MainWindowState :=
  let s' := showListView s
  { s' with emissions := s'.emissions ++ [.backToList] }

/-- MainWindow::onEntryItemClicked: index = row(item); emit
    entrySelected(index) when index >= 0. -/
def onEntryItemClicked (index : Int) (s : MainWindowState) : MainWindowState :=
  if 0 ≤ index then
    { s with emissions := s.emissions ++ [.entrySelected index] }
  else s

/-- MainWindow::onModeDialogAccepted: pack data = mode + "|" + title and
    emit modeSelected(data, ""). -/
def onModeDialogAccepted (mode title : List Char) (s : MainWindowState) : MainWindowState :=
  { s with emissions := s.emissions ++ [.modeSelected (modeRelayData mode title) []] }

end MainWindow

/-- The signal/slot connections made for the BookEditor in
    MainWindow::setupUI (mainwindow.cpp lines 46-55).  BookEditor's
    pageChanged signal is connected to nothing there. -/
def bookSignalHandler : BookSignal → Option (MainWindowState → MainWindowState)
  | .backClicked => some MainWindow.onBackToList
  | .saveClicked c =>
      some fun s => { s with emissions := s.emissions ++ [.saveContent c] }
  | .previousPage => some MainWindow.onPreviousPage
  | .nextPage => some MainWindow.onNextPage
  | .addPage => some MainWindow.onAddPage
  | .insertImage =>
      some fun s => { s with emissions := s.emissions ++ [.insertImage] }
  | .contentChanged t => some (MainWindow.contentChangedLambda t)
  | .pageChanged _ => none

/-- Synchronous Qt signal delivery: dispatch each newly emitted BookEditor
    signal to its connected slot, in order; a signal with no connection is
    dropped. -/
def dispatchBookSignals (sigs : List BookSignal) (s : MainWindowState) : MainWindowState :=
  sigs.foldl
    (fun st sg =>
      match bookSignalHandler sg with
      | some f => f st
      | none => st)
    s

/-- Run an operation on the embedded BookEditor and deliver the signals it
    emitted during the call to their connected MainWindow slots. -/
def runBookOp (op : BookEditorState → BookEditorState) (s : MainWindowState) : MainWindowState :=
  let b0 := s.bookEditor
  let b1 := op b0
  let news := b1.emissions.drop b0.emissions.length
  dispatchBookSignals news { s with bookEditor := b1 }

namespace MainWindow

/-- MainWindow::setCurrentPage: m_currentPage = page, then
    m_bookEditor->setCurrentPage(page). -/
def setCurrentPage (page : Int) (s : MainWindowState) : MainWindowState :=
  runBookOp (BookEditor.setCurrentPage page) { s with m_currentPage := page }

/-- MainWindow::setTotalPages: m_totalPages = total, then
    m_bookEditor->setTotalPages(total). -/
def setTotalPages (total : Int) (s : MainWindowState) : MainWindowState :=
  runBookOp (BookEditor.setTotalPages total) { s with m_totalPages := total }

/-- MainWindow::setWordCount. -/
def setWordCount (count : Int) (s : MainWindowState) : MainWindowState :=
  runBookOp (BookEditor.setWordCount count) { s with m_wordCount := count }

/-- MainWindow::setCurrentContent: push the content into both editors
    (BookEditor::setContent fires contentChanged, which is delivered to
    the word-count lambda; NoteEditor::setContent fires nothing, and its
    contentChanged signal has no connection anyway). -/
def setCurrentContent (content : List Char) (s : MainWindowState) : MainWindowState :=
  let s1 := runBookOp (BookEditor.setContent content) s
  { s1 with noteEditor := NoteEditor.setContent content s1.noteEditor }

/-- MainWindow::setEntryList: mirror the list (rendering is display only). -/
def setEntryList (entries : List (List Char)) (s : MainWindowState) : MainWindowState :=
  { s with m_entryList := entries }

/-- MainWindow::setCurrentEntryTitle: store the title and push it into
    both editors (updateWindowTitle is display only). -/
def setCurrentEntryTitle (title : List Char) (s : MainWindowState) : MainWindowState :=
  { s with m_currentEntryTitle := title,
           bookEditor := BookEditor.setEntryTitle title s.bookEditor,
           noteEditor := NoteEditor.setEntryTitle title s.noteEditor }

/-- MainWindow::setPasswordError: guarded by if (m_passwordDialog). -/
def setPasswordError (error : List Char) (s : MainWindowState) : MainWindowState :=
  match s.m_passwordDialog with
  | some d => { s with m_passwordDialog := some (PasswordDialog.setErrorMessage error d) }
  | none => s

/-- MainWindow::setShowPasswordError: guarded by if (m_passwordDialog). -/
def setShowPasswordError (show_ : Bool) (s : MainWindowState) : MainWindowState :=
  match s.m_passwordDialog with
  | some d => { s with m_passwordDialog := some (PasswordDialog.setShowError show_ d) }
  | none => s

end MainWindow

-- ============ user-level gestures on the composed system ============

/-- Clicking the Previous button in the book view: a disabled QPushButton
    emits nothing; an enabled one emits BookEditor::previousPage, whose
    connected slot is MainWindow::onPreviousPage. -/
def clickPrevButton (s : MainWindowState) : MainWindowState :=
  if s.bookEditor.prevEnabled then
    runBookOp (fun b => { b with emissions := b.emissions ++ [.previousPage] }) s
  else s

/-- Clicking the Next button in the book view. -/
def clickNextButton (s : MainWindowState) : MainWindowState :=
  if s.bookEditor.nextEnabled then
    runBookOp (fun b => { b with emissions := b.emissions ++ [.nextPage] }) s
  else s

/-- Typing a value directly into the page spin box: QSpinBox emits
    valueChanged(value), whose connected slot is
    BookEditor::onPageSpinBoxChanged; any BookEditor signal emitted there
    is then dispatched through the setupUI connection table. -/
def spinBoxEdit (value : Int) (s : MainWindowState) : MainWindowState :=
  runBookOp
    (fun b => BookEditor.onPageSpinBoxChanged value { b with spinValue := value }) s

/-- The page_changed payloads the backend receives:
    qt_register_page_changed connects MainWindow::pageChanged (and only
    that signal) to the registered callback, forwarding the int payload. -/
def backendPageChangedDeliveries (s : MainWindowState) : List Int :=
  s.emissions.filterMap
    (fun e =>
      match e with
      | .pageChanged v => some v
      | _ => none)

/-- Signals of the entry QListWidget that setupListView connects. -/
inductive ListSignal where
  | itemClicked (row : Int)
  | itemDoubleClicked (row : Int)
  deriving DecidableEq, Repr

/-- The connections made in MainWindow::setupListView (lines 193-194):
    both itemClicked and itemDoubleClicked go to onEntryItemClicked. -/
def listSignalHandler : ListSignal → MainWindowState → MainWindowState
  | .itemClicked r => MainWindow.onEntryItemClicked r
  | .itemDoubleClicked r => MainWindow.onEntryItemClicked r

/-- A single-click gesture on row r: Qt delivers itemClicked(row). -/
def singleClickGesture (r : Int) (s : MainWindowState) : MainWindowState :=
  listSignalHandler (.itemClicked r) s

/-- A double-click gesture on row r: Qt delivers itemClicked(row) for the
    first press/release and itemDoubleClicked(row) for the second press. -/
def doubleClickGesture (r : Int) (s : MainWindowState) : MainWindowState :=
  listSignalHandler (.itemDoubleClicked r) (listSignalHandler (.itemClicked r) s)

-- ===================== qt_bridge =====================

/-- The bridge handle (qt_bridge.cpp struct MainWindowHandle): a
    QApplication pointer and a MainWindow pointer, either of which a
    misbehaving caller can leave null.  The callback slots are modelled at
    the delivery functions instead. -/
structure MainWindowHandle where
  app : Option Unit
  window : Option MainWindowState
  deriving DecidableEq, Repr

/-- qt_init: allocate the handle, create the QApplication and the
    MainWindow, show the window.  A null argument models a null handle
    passed to the other calls. -/
def qt_init : Option MainWindowHandle :=
  some { app := some (), window := some mainWindowInit }

/-- What a bridge lifecycle call does, observably. -/
inductive ExecOutcome where
  | earlyReturn (code : Int)
  | ranEventLoop
  deriving DecidableEq, Repr

/-- qt_exec: return -1 when the handle or its app pointer is null,
    otherwise run the Qt event loop.  Note the guard tests the app
    pointer, not the window pointer. -/
def qt_exec (h : Option MainWindowHandle) : ExecOutcome :=
  match h with
  | none => .earlyReturn (-1)
  | some hh =>
    match hh.app with
    | none => .earlyReturn (-1)
    | some _ => .ranEventLoop

/-- What qt_cleanup does, observably. -/
inductive CleanupOutcome where
  | noop
  | freedHandle (freedWindow freedApp : Bool)
  deriving DecidableEq, Repr

/-- qt_cleanup: with a null handle, return; otherwise delete the window
    and the app when non-null, and always delete the handle itself. -/
def qt_cleanup (h : Option MainWindowHandle) : CleanupOutcome :=
  match h with
  | none => .noop
  | some hh => .freedHandle hh.window.isSome hh.app.isSome

/-- Lift a MainWindow mutation to a bridge setter with the common guard
    `if (!handle || !handle->window) return;` that every qt_set_* uses. -/
def bridgeSetter (f : MainWindowState → MainWindowState)
    (h : Option MainWindowHandle) : Option MainWindowHandle :=
  match h with
  | none => none
  | some hh =>
    match hh.window with
    | none => some hh
    | some w => some { hh with window := some (f w) }

/-- qt_set_entry_list. -/
def qt_set_entry_list (h : Option MainWindowHandle) (entries : List (List Char)) :
    Option MainWindowHandle :=
  bridgeSetter (MainWindow.setEntryList entries) h

/-- qt_set_current_entry_title. -/
def qt_set_current_entry_title (h : Option MainWindowHandle) (title : List Char) :
    Option MainWindowHandle :=
  bridgeSetter (MainWindow.setCurrentEntryTitle title) h

/-- qt_set_current_content. -/
def qt_set_current_content (h : Option MainWindowHandle) (content : List Char) :
    Option MainWindowHandle :=
  bridgeSetter (MainWindow.setCurrentContent content) h

/-- qt_set_current_page. -/
def qt_set_current_page (h : Option MainWindowHandle) (page : Int) :
    Option MainWindowHandle :=
  bridgeSetter (MainWindow.setCurrentPage page) h

/-- qt_set_total_pages. -/
def qt_set_total_pages (h : Option MainWindowHandle) (total : Int) :
    Option MainWindowHandle :=
  bridgeSetter (MainWindow.setTotalPages total) h

/-- qt_set_word_count. -/
def qt_set_word_count (h : Option MainWindowHandle) (count : Int) :
    Option MainWindowHandle :=
  bridgeSetter (MainWindow.setWordCount count) h

/-- qt_set_password_error. -/
def qt_set_password_error (h : Option MainWindowHandle) (error : List Char) :
    Option MainWindowHandle :=
  bridgeSetter (MainWindow.setPasswordError error) h

/-- qt_show_password_error: the C int is turned into a bool via show != 0. -/
def qt_show_password_error (h : Option MainWindowHandle) (show_ : Int) :
    Option MainWindowHandle :=
  bridgeSetter (MainWindow.setShowPasswordError (decide (show_ ≠ 0))) h

/-- qt_show_book_editor: the body in qt_bridge.cpp is empty ("This would
    require adding a method to MainWindow // For now, the view switching
    is handled internally"), so the call changes nothing. -/
def qt_show_book_editor (h : Option MainWindowHandle) : Option MainWindowHandle :=
  h

/-- qt_show_note_editor: body empty ("Same as above"). -/
def qt_show_note_editor (h : Option MainWindowHandle) : Option MainWindowHandle :=
  h

/-- qt_show_list_view: body empty ("Same as above"). -/
def qt_show_list_view (h : Option MainWindowHandle) : Option MainWindowHandle :=
  h

-- ===================== application startup =====================

/-- The observable result of starting the application: the final state of
    the password gate after the user's interaction with it, the MainWindow
    that the constructor finished building, and whether qt_init reached
    handle->window->show(). -/
structure AppStartup where
  gate : PwState
  window : MainWindowState
  windowShown : Bool
  deriving DecidableEq, Repr

/-- qt_init / MainWindow::MainWindow: the constructor execs the password
    dialog; whatever way the dialog closes (accept or reject), the
    constructor returns and qt_init then shows the main window and returns
    the handle — nothing checks the dialog's outcome. -/
def runStartup (gateInteraction : PwState → PwState) : AppStartup :=
  { gate := gateInteraction pwInit, window := mainWindowInit, windowShown := true }

-- ===================== navigation state machine =====================

/-- The operations of the pagination contract: the two backend setters and
    the two navigation button clicks. -/
inductive NavOp where
  | setCP (p : Int)
  | setTP (t : Int)
  | clickPrev
  | clickNext
  deriving DecidableEq, Repr

/-- One step of the pagination machine. -/
def navStep : NavOp → MainWindowState → MainWindowState
  | .setCP p, s => MainWindow.setCurrentPage p s
  | .setTP t, s => MainWindow.setTotalPages t s
  | .clickPrev, s => clickPrevButton s
  | .clickNext, s => clickNextButton s

/-- A backend push is in range when it respects the documented invariant
    1 <= current_page <= total_pages as seen by the book view's page
    field: set_current_page(p) with p inside the spin box range and
    set_total_pages(t) not below the page the spin box shows. -/
def goodOp (s : MainWindowState) : NavOp → Bool
  | .setCP p => decide (1 ≤ p) && decide (p ≤ s.bookEditor.spinMax)
  | .setTP t => decide (s.bookEditor.spinValue ≤ t)
  | .clickPrev => true
  | .clickNext => true

/-- States reachable from startup by in-range backend pushes and
    Previous / Next clicks, with no direct edit of the page field. -/
inductive NavReach : MainWindowState → Prop
  | init : NavReach mainWindowInit
  | step {s : MainWindowState} (op : NavOp) :
      NavReach s → goodOp s op = true → NavReach (navStep op s)

/-- Inductive invariant of the pagination machine: the BookEditor's local
    copies of page and total agree with MainWindow's, the spin box shows
    the page, and the two navigation buttons reflect the clamp rule. -/
def NavInv (s : MainWindowState) : Prop :=
  s.bookEditor.m_currentPage = s.m_currentPage ∧
  s.bookEditor.m_totalPages = s.m_totalPages ∧
  s.bookEditor.spinValue = s.m_currentPage ∧
  s.bookEditor.spinMin = 1 ∧
  1 ≤ s.m_currentPage ∧
  s.bookEditor.prevEnabled = decide (1 < s.m_currentPage) ∧
  s.bookEditor.nextEnabled = decide (s.m_currentPage < s.m_totalPages)

/-- A reachable pagination state used as a concrete sample: total pushed
    to 3, then page pushed to 2. -/
def navSample : MainWindowState :=
  navStep (.setCP 2) (navStep (.setTP 3) mainWindowInit)

/-- The desynchronized state: total pushed to 3, the user types 2 into the
    page field (which updates only BookEditor's local page), then the
    backend pushes total 5 (which recomputes button enablement from the
    local copy while MainWindow's m_currentPage is still 1). -/
def desyncState : MainWindowState :=
  MainWindow.setTotalPages 5 (spinBoxEdit 2 (MainWindow.setTotalPages 3 mainWindowInit))

/-- A handcrafted handle whose window pointer is null but whose app
    pointer is not. -/
def windowlessHandle : MainWindowHandle :=
  { app := some (), window := none }

/-- The password gate with " a" typed into the field. -/
def pwSampleOk : PwState :=
  { pwInit with input := [' ', 'a'] }

/-- The password gate with a single space typed into the field. -/
def pwSampleWs : PwState :=
  { pwInit with input := [' '] }

-- ===================== helper lemmas =====================

theorem splitChar_ne_nil (sep : Char) (l : List Char) : splitChar sep l ≠ [] := by
  induction l with
  | nil => simp [splitChar]
  | cons c cs ih =>
    by_cases hc : c = sep
    · simp [splitChar, hc]
    · simp only [splitChar, hc, if_false]
      split <;> simp

theorem splitChar_getD_zero (sep : Char) (l : List Char) :
    (splitChar sep l).getD 0 [] = l.takeWhile (fun c => !decide (c = sep)) := by
  induction l with
  | nil => simp [splitChar]
  | cons c cs ih =>
    by_cases hc : c = sep
    · simp [splitChar, hc, List.takeWhile_cons]
    · simp only [splitChar, hc, if_false]
      cases hs : splitChar sep cs with
      | nil => exact absurd hs (splitChar_ne_nil sep cs)
      | cons p ps =>
        rw [hs] at ih
        simp [List.takeWhile_cons, hc, ← ih]

theorem splitChar_append (sep : Char) (l₁ l₂ : List Char)
    (h : ∀ c ∈ l₁, c ≠ sep) :
    splitChar sep (l₁ ++ sep :: l₂) = l₁ :: splitChar sep l₂ := by
  induction l₁ with
  | nil => simp [splitChar]
  | cons c cs ih =>
    have hc : c ≠ sep := h c (by simp)
    have ih' := ih (fun d hd => h d (by simp [hd]))
    simp only [List.cons_append, splitChar, hc, if_false]
    rw [List.append_eq, ih']

theorem runStartsAfter_of_ws {prev : Char} (h : wsChar prev = true) (l : List Char) :
    runStartsAfter prev l = runStarts l := by
  cases l with
  | nil => simp [runStartsAfter, runStarts]
  | cons c cs =>
    cases hc : wsChar c <;> simp [runStartsAfter, runStarts, h, hc]

theorem splitWsRun_ne_nil (l : List Char) :
    splitWsRun l ≠ [] ∧ splitWsInRun l ≠ [] := by
  induction l with
  | nil => constructor <;> simp [splitWsRun, splitWsInRun]
  | cons c cs ih =>
    cases hc : wsChar c
    · constructor
      · simp only [splitWsRun, hc, Bool.false_eq_true, if_false]
        split <;> simp
      · simp only [splitWsInRun, hc, Bool.false_eq_true, if_false]
        split <;> simp
    · constructor
      · simp [splitWsRun, hc]
      · simp only [splitWsInRun, hc, if_true]
        exact ih.2

theorem splitWs_filter_count (l : List Char) :
    ((splitWsRun l).filter (fun p => !p.isEmpty)).length = runStarts l ∧
    ((splitWsInRun l).filter (fun p => !p.isEmpty)).length = runStarts l ∧
    ∀ prev, wsChar prev = false →
      (((splitWsRun l).tail).filter (fun p => !p.isEmpty)).length = runStartsAfter prev l := by
  induction l with
  | nil =>
    refine ⟨by simp [splitWsRun, runStarts], by simp [splitWsInRun, runStarts], ?_⟩
    intro prev _
    simp [splitWsRun, runStartsAfter]
  | cons c cs ih =>
    obtain ⟨ih1, ih2, ih3⟩ := ih
    cases hc : wsChar c
    · -- c is not whitespace: both scanners start a new part with c
      obtain ⟨hne, -⟩ := splitWsRun_ne_nil cs
      cases hs : splitWsRun cs with
      | nil => exact absurd hs hne
      | cons p ps =>
        rw [hs] at ih1 ih3
        have hstep : runStarts (c :: cs) = 1 + runStartsAfter c cs := by
          simp [runStarts, hc]
        refine ⟨?_, ?_, ?_⟩
        · simp only [splitWsRun, hc, Bool.false_eq_true, if_false, hs]
          simp only [List.filter_cons, List.isEmpty_cons, Bool.not_false, if_true,
            List.length_cons, hstep]
          have := ih3 c hc
          simp only [List.tail_cons] at this
          omega
        · simp only [splitWsInRun, hc, Bool.false_eq_true, if_false, hs]
          simp only [List.filter_cons, List.isEmpty_cons, Bool.not_false, if_true,
            List.length_cons, hstep]
          have := ih3 c hc
          simp only [List.tail_cons] at this
          omega
        · intro prev hprev
          simp only [splitWsRun, hc, Bool.false_eq_true, if_false, hs, List.tail_cons]
          have := ih3 c hc
          simp only [List.tail_cons] at this
          simp only [runStartsAfter, hc, hprev, Bool.not_false, Bool.and_false,
            Bool.false_and, if_false]
          simpa using this
    · -- c is whitespace: the first part ends (or the run continues)
      have hstarts : runStarts (c :: cs) = runStarts cs := by
        simp [runStarts, hc, runStartsAfter_of_ws hc]
      refine ⟨?_, ?_, ?_⟩
      · simp only [splitWsRun, hc, if_true]
        simpa [List.filter_cons, hstarts] using ih2
      · simp only [splitWsInRun, hc, if_true]
        rw [ih2, hstarts]
      · intro prev hprev
        simp only [splitWsRun, hc, if_true, List.tail_cons]
        rw [ih2]
        simp [runStartsAfter, hc, runStartsAfter_of_ws hc, hstarts]

theorem wordCountQt_eq_runStarts (l : List Char) : wordCountQt l = runStarts l :=
  (splitWs_filter_count l).1

theorem runBookOp_silent (op : BookEditorState → BookEditorState)
    (s : MainWindowState)
    (h : (op s.bookEditor).emissions = s.bookEditor.emissions) :
    runBookOp op s = { s with bookEditor := op s.bookEditor } := by
  simp [runBookOp, h, List.drop_length, dispatchBookSignals]

theorem runBookOp_emit (op : BookEditorState → BookEditorState)
    (sigs : List BookSignal) (s : MainWindowState)
    (h : (op s.bookEditor).emissions = s.bookEditor.emissions ++ sigs) :
    runBookOp op s = dispatchBookSignals sigs { s with bookEditor := op s.bookEditor } := by
  simp [runBookOp, h, List.drop_left]

theorem qtModeSelectedDeliver_pack (mode title : List Char)
    (hm : ∀ c ∈ mode, c ≠ '|') :
    qtModeSelectedDeliver (modeRelayData mode title) =
      some (mode, title.takeWhile (fun c => !decide (c = '|'))) := by
  unfold qtModeSelectedDeliver modeRelayData
  rw [splitChar_append '|' mode title hm]
  have hlen : 0 < (splitChar '|' title).length :=
    List.length_pos.mpr (splitChar_ne_nil '|' title)
  rw [if_pos (by simp only [List.length_cons]; omega)]
  simp only [List.getD_cons_zero, List.getD_cons_succ, splitChar_getD_zero]

theorem noteSetContent_fold (texts : List (List Char)) (n : NoteEditorState) :
    (texts.foldl (fun st t => NoteEditor.setContent t st) n).emissions = n.emissions := by
  induction texts generalizing n with
  | nil => rfl
  | cons t ts ih => exact ih (NoteEditor.setContent t n)

theorem bookSetContent_fold (texts : List (List Char)) (b : BookEditorState) :
    (texts.foldl (fun st t => BookEditor.setContent t st) b).emissions =
      b.emissions ++ texts.map BookSignal.contentChanged := by
  induction texts generalizing b with
  | nil => simp
  | cons t ts ih =>
    rw [List.foldl_cons, ih (BookEditor.setContent t b)]
    simp [BookEditor.setContent, BookEditor.onContentChanged]

theorem bookKeystroke_fold (keys : List Char) (b : BookEditorState) :
    (keys.foldl (fun st c => BookEditor.keystroke c st) b).emissions.length =
      b.emissions.length + keys.length := by
  induction keys generalizing b with
  | nil => simp
  | cons c cs ih =>
    rw [List.foldl_cons, ih (BookEditor.keystroke c b)]
    simp [BookEditor.keystroke, BookEditor.onContentChanged]
    omega

theorem noteKeystroke_fold (keys : List Char) (n : NoteEditorState) :
    (keys.foldl (fun st c => NoteEditor.keystroke c st) n).emissions.length =
      n.emissions.length + keys.length := by
  induction keys generalizing n with
  | nil => simp
  | cons c cs ih =>
    rw [List.foldl_cons, ih (NoteEditor.keystroke c n)]
    simp [NoteEditor.keystroke, NoteEditor.onContentChanged]
    omega

theorem navReach_inv {s : MainWindowState} (h : NavReach s) : NavInv s := by
  induction h with
  | init =>
    simp only [NavInv]
    decide
  | @step s op hr hg ih =>
    obtain ⟨i1, i2, i3, i4, i5, i6, i7⟩ := ih
    cases op with
    | setCP p =>
      simp only [goodOp, Bool.and_eq_true, decide_eq_true_eq] at hg
      obtain ⟨hg1, hg2⟩ := hg
      have hmm : max s.bookEditor.spinMin (min s.bookEditor.spinMax p) = p := by
        rw [i4, min_eq_right hg2, max_eq_right hg1]
      have hbe : BookEditor.setCurrentPage p s.bookEditor =
          { s.bookEditor with
            m_currentPage := p,
            spinValue := p,
            prevEnabled := decide (1 < p),
            nextEnabled := decide (p < s.bookEditor.m_totalPages) } := by
        simp [BookEditor.setCurrentPage, BookEditor.updateNavigationButtons, hmm]
      have hstep : navStep (.setCP p) s =
          { s with
            m_currentPage := p,
            bookEditor := { s.bookEditor with
              m_currentPage := p,
              spinValue := p,
              prevEnabled := decide (1 < p),
              nextEnabled := decide (p < s.bookEditor.m_totalPages) } } := by
        simp [navStep, MainWindow.setCurrentPage, runBookOp, dispatchBookSignals,
          hbe, List.drop_length]
      rw [hstep]
      exact ⟨rfl, i2, rfl, i4, hg1, rfl, by rw [i2]⟩
    | setTP t =>
      simp only [goodOp, decide_eq_true_eq] at hg
      have h1t : (1 : Int) ≤ t := le_trans (i3 ▸ i5) hg
      have hnc : ¬ (s.bookEditor.spinValue > t) := not_lt.mpr hg
      have hmin : min s.bookEditor.spinMin t = 1 := by
        rw [i4]
        exact min_eq_left h1t
      have hbe : BookEditor.setTotalPages t s.bookEditor =
          { s.bookEditor with
            m_totalPages := t,
            spinMax := t,
            spinMin := 1,
            prevEnabled := decide (1 < s.bookEditor.m_currentPage),
            nextEnabled := decide (s.bookEditor.m_currentPage < t) } := by
        simp [BookEditor.setTotalPages, BookEditor.updateNavigationButtons, hnc, hmin]
      have hstep : navStep (.setTP t) s =
          { s with
            m_totalPages := t,
            bookEditor := { s.bookEditor with
              m_totalPages := t,
              spinMax := t,
              spinMin := 1,
              prevEnabled := decide (1 < s.bookEditor.m_currentPage),
              nextEnabled := decide (s.bookEditor.m_currentPage < t) } } := by
        simp [navStep, MainWindow.setTotalPages, runBookOp, dispatchBookSignals,
          hbe, List.drop_length]
      rw [hstep]
      exact ⟨i1, rfl, i3, rfl, i5, by rw [i1], by rw [i1]⟩
    | clickPrev =>
      cases hp : s.bookEditor.prevEnabled with
      | false =>
        simp only [navStep, clickPrevButton, hp, Bool.false_eq_true, if_false]
        exact ⟨i1, i2, i3, i4, i5, i6, i7⟩
      | true =>
        simp only [navStep, clickPrevButton, hp, if_true]
        rw [runBookOp_emit _ [.previousPage] _ rfl]
        simp only [dispatchBookSignals, List.foldl_cons, List.foldl_nil, bookSignalHandler]
        unfold MainWindow.onPreviousPage
        split
        · exact ⟨i1, i2, i3, i4, i5, i6, i7⟩
        · exact ⟨i1, i2, i3, i4, i5, i6, i7⟩
    | clickNext =>
      cases hp : s.bookEditor.nextEnabled with
      | false =>
        simp only [navStep, clickNextButton, hp, Bool.false_eq_true, if_false]
        exact ⟨i1, i2, i3, i4, i5, i6, i7⟩
      | true =>
        simp only [navStep, clickNextButton, hp, if_true]
        rw [runBookOp_emit _ [.nextPage] _ rfl]
        simp only [dispatchBookSignals, List.foldl_cons, List.foldl_nil, bookSignalHandler]
        unfold MainWindow.onNextPage
        split
        · exact ⟨i1, i2, i3, i4, i5, i6, i7⟩
        · exact ⟨i1, i2, i3, i4, i5, i6, i7⟩

-- ===================== claims =====================

/-- C1, counterexample: for the password " a " (trimmed form non-empty),
    submitting does not emit password_submitted(" a "): the emitted payload
    is the trimmed text "a", so the claim as stated fails. -/
theorem C1_claim_counterexample :
    trimmed [' ', 'a', ' '] ≠ [] ∧
    (PasswordDialog.accept { pwInit with input := [' ', 'a', ' '] }).emissions ≠
      [PwEvent.passwordSubmitted [' ', 'a', ' ']] := by
  decide

/-- C1, amended: submitting (Enter in the field and the Unlock button both
    invoke PasswordDialog::accept) with a password whose trimmed form is
    non-empty emits exactly one password_submitted carrying the TRIMMED
    password and closes the gate; with an empty or whitespace-only
    password, the state changes only by setting the local error
    "Password cannot be empty" and making the error region visible: no
    emission occurs and the gate stays open. -/
theorem C1_password_gate_amended (s : PwState) :
    PasswordDialog.submitViaEnter = PasswordDialog.accept ∧
    PasswordDialog.submitViaUnlock = PasswordDialog.accept ∧
    (trimmed s.input ≠ [] →
      PasswordDialog.accept s =
        { s with
          emissions := s.emissions ++ [PwEvent.passwordSubmitted (trimmed s.input)],
          isOpen := false }) ∧
    (trimmed s.input = [] →
      PasswordDialog.accept s =
        { s with errorText := pwEmptyMsg, errorVisible := true }) := by
  refine ⟨rfl, rfl, ?_, ?_⟩
  · intro h
    have hne : (trimmed s.input).isEmpty = false := by
      cases hh : trimmed s.input with
      | nil => exact absurd hh h
      | cons c cs => rfl
    simp [PasswordDialog.accept, hne]
  · intro h
    simp [PasswordDialog.accept, h, PasswordDialog.setShowError,
      PasswordDialog.setErrorMessage]

/-- C1, witness: the amended theorem applied at the concrete inputs " a"
    (submits "a" and closes) and " " (keeps the gate open with the local
    error). -/
theorem C1_password_gate_amended_witness :
    (PasswordDialog.accept pwSampleOk =
      { pwSampleOk with
        emissions := pwSampleOk.emissions ++ [PwEvent.passwordSubmitted (trimmed pwSampleOk.input)],
        isOpen := false }) ∧
    (PasswordDialog.accept pwSampleWs =
      { pwSampleWs with errorText := pwEmptyMsg, errorVisible := true }) :=
  ⟨(C1_password_gate_amended pwSampleOk).2.2.1 (by decide),
   (C1_password_gate_amended pwSampleWs).2.2.2 (by decide)⟩

/-- C2, counterexample: with mode BOOK and the title "a|b" (trimmed form
    non-empty), the dialog emits the raw title but the bridge's "MODE|TITLE"
    parsing delivers title "a" to the backend, not the exact text entered. -/
theorem C2_claim_counterexample :
    trimmed ['a', '|', 'b'] ≠ [] ∧
    (ModeSelectionDialog.onBookModeClicked (modeInit ['a', '|', 'b'])).emissions =
      [ModeEvent.modeSelected bookModeStr ['a', '|', 'b']] ∧
    qtModeSelectedDeliver (modeRelayData bookModeStr ['a', '|', 'b']) =
      some (bookModeStr, ['a']) ∧
    (['a'] : List Char) ≠ ['a', '|', 'b'] := by
  decide

/-- C2, amended: for a title whose trimmed form is non-empty, clicking a
    mode button emits exactly one modeSelected with mode "BOOK" or "NOTE"
    and the raw title, and closes the dialog; the backend callback then
    receives the mode together with the PORTION OF THE TITLE BEFORE THE
    FIRST PIPE character (the exact text whenever the title contains no
    pipe, since the relay packs "MODE|TITLE" and splits on the pipe).
    For an empty or whitespace-only title, the dialog only shows the
    warning: nothing is emitted and it stays open. -/
theorem C2_mode_selector_amended (title : List Char) :
    (trimmed title ≠ [] →
      (ModeSelectionDialog.onBookModeClicked (modeInit title)).emissions =
        [ModeEvent.modeSelected bookModeStr title] ∧
      (ModeSelectionDialog.onBookModeClicked (modeInit title)).isOpen = false ∧
      (ModeSelectionDialog.onNoteModeClicked (modeInit title)).emissions =
        [ModeEvent.modeSelected noteModeStr title] ∧
      (ModeSelectionDialog.onNoteModeClicked (modeInit title)).isOpen = false ∧
      qtModeSelectedDeliver (modeRelayData bookModeStr title) =
        some (bookModeStr, title.takeWhile (fun c => !decide (c = '|'))) ∧
      qtModeSelectedDeliver (modeRelayData noteModeStr title) =
        some (noteModeStr, title.takeWhile (fun c => !decide (c = '|')))) ∧
    (trimmed title = [] →
      ModeSelectionDialog.onBookModeClicked (modeInit title) =
        { modeInit title with warningShown := true } ∧
      ModeSelectionDialog.onNoteModeClicked (modeInit title) =
        { modeInit title with warningShown := true }) := by
  constructor
  · intro h
    have hne : (trimmed title).isEmpty = false := by
      cases hh : trimmed title with
      | nil => exact absurd hh h
      | cons c cs => rfl
    refine ⟨?_, ?_, ?_, ?_, ?_, ?_⟩
    · simp [ModeSelectionDialog.onBookModeClicked, ModeSelectionDialog.validateAndAccept,
        ModeSelectionDialog.acceptDialog, modeInit, hne]
    · simp [ModeSelectionDialog.onBookModeClicked, ModeSelectionDialog.validateAndAccept,
        ModeSelectionDialog.acceptDialog, modeInit, hne]
    · simp [ModeSelectionDialog.onNoteModeClicked, ModeSelectionDialog.validateAndAccept,
        ModeSelectionDialog.acceptDialog, modeInit, hne]
    · simp [ModeSelectionDialog.onNoteModeClicked, ModeSelectionDialog.validateAndAccept,
        ModeSelectionDialog.acceptDialog, modeInit, hne]
    · exact qtModeSelectedDeliver_pack bookModeStr title (by decide)
    · exact qtModeSelectedDeliver_pack noteModeStr title (by decide)
  · intro h
    constructor
    · simp [ModeSelectionDialog.onBookModeClicked, ModeSelectionDialog.validateAndAccept,
        modeInit, h]
    · simp [ModeSelectionDialog.onNoteModeClicked, ModeSelectionDialog.validateAndAccept,
        modeInit, h]

/-- C2, witness: the amended theorem applied at the concrete title "t". -/
theorem C2_mode_selector_amended_witness :
    (ModeSelectionDialog.onBookModeClicked (modeInit ['t'])).emissions =
      [ModeEvent.modeSelected bookModeStr ['t']] ∧
    (ModeSelectionDialog.onBookModeClicked (modeInit ['t'])).isOpen = false ∧
    (ModeSelectionDialog.onNoteModeClicked (modeInit ['t'])).emissions =
      [ModeEvent.modeSelected noteModeStr ['t']] ∧
    (ModeSelectionDialog.onNoteModeClicked (modeInit ['t'])).isOpen = false ∧
    qtModeSelectedDeliver (modeRelayData bookModeStr ['t']) =
      some (bookModeStr, List.takeWhile (fun c => !decide (c = '|')) ['t']) ∧
    qtModeSelectedDeliver (modeRelayData noteModeStr ['t']) =
      some (noteModeStr, List.takeWhile (fun c => !decide (c = '|')) ['t']) :=
  (C2_mode_selector_amended ['t']).1 (by decide)

/-- C3, counterexample: one programmatic setContent on the BookEditor
    emits one contentChanged signal (it explicitly re-fires the handler
    after the blocked text replacement), not zero as claimed. -/
theorem C3_claim_counterexample :
    (BookEditor.setContent ['x'] bookInit).emissions = [BookSignal.contentChanged ['x']] ∧
    [BookSignal.contentChanged ['x']] ≠ ([] : List BookSignal) := by
  decide

/-- C3, amended: NoteEditor::setContent emits no contentChanged signal no
    matter how many times it is called, but BookEditor::setContent emits
    exactly ONE contentChanged per call (deliberately, to refresh the word
    count); N user keystrokes produce exactly N contentChanged signals in
    either editor. -/
theorem C3_set_content_signals_amended (texts : List (List Char)) (keys : List Char)
    (b : BookEditorState) (n : NoteEditorState) :
    (texts.foldl (fun st t => NoteEditor.setContent t st) n).emissions = n.emissions ∧
    (texts.foldl (fun st t => BookEditor.setContent t st) b).emissions =
      b.emissions ++ texts.map BookSignal.contentChanged ∧
    (keys.foldl (fun st c => BookEditor.keystroke c st) b).emissions.length =
      b.emissions.length + keys.length ∧
    (keys.foldl (fun st c => NoteEditor.keystroke c st) n).emissions.length =
      n.emissions.length + keys.length :=
  ⟨noteSetContent_fold texts n, bookSetContent_fold texts b,
   bookKeystroke_fold keys b, noteKeystroke_fold keys n⟩

/-- C4: the three show_* bridge directives have empty bodies, so they leave
    every handle unchanged — in particular, after qt_init the active view
    stays List — even though the MainWindow methods they were meant to call
    exist and do switch the view. -/
theorem C4_show_directives_are_stubs :
    qt_show_book_editor qt_init = qt_init ∧
    qt_show_note_editor qt_init = qt_init ∧
    qt_show_list_view qt_init = qt_init ∧
    mainWindowInit.currentView = ViewId.List ∧
    (MainWindow.showBookEditor mainWindowInit).currentView = ViewId.Book ∧
    (MainWindow.showNoteEditor mainWindowInit).currentView = ViewId.Note ∧
    (MainWindow.showListView (MainWindow.showBookEditor mainWindowInit)).currentView =
      ViewId.List :=
  ⟨rfl, rfl, rfl, rfl, rfl, rfl, rfl⟩

/-- C5, counterexample: after set_total_pages(3), typing 2 into the page
    field (which updates only BookEditor's local page copy), then
    set_total_pages(5), the state has backend-pushed current_page = 1 and
    total_pages = 5, yet the Previous control is enabled — violating
    "actionable iff k > 1" — and clicking it emits nothing — violating
    "clicking an actionable control emits page_changed(k-1)". -/
theorem C5_claim_counterexample :
    desyncState.m_currentPage = 1 ∧
    desyncState.m_totalPages = 5 ∧
    desyncState.bookEditor.prevEnabled = true ∧
    (clickPrevButton desyncState).emissions = desyncState.emissions := by
  decide

/-- C5, amended: in every state reachable by in-range backend pushes
    (set_current_page within the page field's range, set_total_pages not
    below the shown page — in particular whenever the backend maintains
    1 <= current_page <= total_pages) and Previous/Next clicks, with no
    direct edit of the page field: Previous is enabled iff k > 1, Next iff
    k < n, clicking an enabled control emits exactly page_changed(k-1) or
    page_changed(k+1), and a disabled control emits nothing. -/
theorem C5_pagination_clamp_amended (s : MainWindowState) (h : NavReach s) :
    s.bookEditor.prevEnabled = decide (1 < s.m_currentPage) ∧
    s.bookEditor.nextEnabled = decide (s.m_currentPage < s.m_totalPages) ∧
    (clickPrevButton s).emissions =
      s.emissions ++
        (if 1 < s.m_currentPage then [MainSignal.pageChanged (s.m_currentPage - 1)] else []) ∧
    (clickNextButton s).emissions =
      s.emissions ++
        (if s.m_currentPage < s.m_totalPages then [MainSignal.pageChanged (s.m_currentPage + 1)]
         else []) := by
  obtain ⟨i1, i2, i3, i4, i5, i6, i7⟩ := navReach_inv h
  refine ⟨i6, i7, ?_, ?_⟩
  · by_cases hk : 1 < s.m_currentPage
    · have hp : s.bookEditor.prevEnabled = true := by
        rw [i6]
        simp [hk]
      rw [if_pos hk]
      simp only [clickPrevButton, hp, if_true]
      rw [runBookOp_emit _ [.previousPage] _ rfl]
      simp only [dispatchBookSignals, List.foldl_cons, List.foldl_nil, bookSignalHandler]
      unfold MainWindow.onPreviousPage
      split
      · rfl
      · next hcon => exact absurd hk hcon
    · have hp : s.bookEditor.prevEnabled = false := by
        rw [i6]
        simp [hk]
      rw [if_neg hk]
      simp [clickPrevButton, hp]
  · by_cases hk : s.m_currentPage < s.m_totalPages
    · have hp : s.bookEditor.nextEnabled = true := by
        rw [i7]
        simp [hk]
      rw [if_pos hk]
      simp only [clickNextButton, hp, if_true]
      rw [runBookOp_emit _ [.nextPage] _ rfl]
      simp only [dispatchBookSignals, List.foldl_cons, List.foldl_nil, bookSignalHandler]
      unfold MainWindow.onNextPage
      split
      · rfl
      · next hcon => exact absurd hk hcon
    · have hp : s.bookEditor.nextEnabled = false := by
        rw [i7]
        simp [hk]
      rw [if_neg hk]
      simp [clickNextButton, hp]

/-- C5, witness: the amended theorem at the reachable state obtained by
    pushing total_pages = 3 and then current_page = 2. -/
theorem C5_pagination_clamp_amended_witness :
    navSample.bookEditor.prevEnabled = decide (1 < navSample.m_currentPage) ∧
    navSample.bookEditor.nextEnabled =
      decide (navSample.m_currentPage < navSample.m_totalPages) ∧
    (clickPrevButton navSample).emissions =
      navSample.emissions ++
        (if 1 < navSample.m_currentPage then
          [MainSignal.pageChanged (navSample.m_currentPage - 1)] else []) ∧
    (clickNextButton navSample).emissions =
      navSample.emissions ++
        (if navSample.m_currentPage < navSample.m_totalPages then
          [MainSignal.pageChanged (navSample.m_currentPage + 1)] else []) :=
  C5_pagination_clamp_amended navSample
    (NavReach.step (.setCP 2)
      (NavReach.step (.setTP 3) NavReach.init (by decide)) (by decide))

/-- C6: pressing Escape at the password gate only rejects (closes) the
    dialog — no application exit is requested and nothing is emitted —
    and startup then proceeds to show the main window anyway; only the
    Exit and close buttons request QApplication::quit. -/
theorem C6_escape_rejects_without_quit :
    (runStartup PasswordDialog.keyPressEscape).gate.quitRequested = false ∧
    (runStartup PasswordDialog.keyPressEscape).gate.isOpen = false ∧
    (runStartup PasswordDialog.keyPressEscape).gate.emissions = [] ∧
    (runStartup PasswordDialog.keyPressEscape).windowShown = true ∧
    (PasswordDialog.exitButtonClicked pwInit).quitRequested = true ∧
    (PasswordDialog.closeButtonClicked pwInit).quitRequested = true := by
  decide

/-- C7: pushing content T into the editors and reading it back returns
    exactly T (both editors), and the word count derived by the
    contentChanged lambda equals the number of maximal non-whitespace runs
    of T. -/
theorem C7_roundtrip_wordcount (T : List Char) (s : MainWindowState) :
    BookEditor.getContent ((MainWindow.setCurrentContent T s).bookEditor) = T ∧
    NoteEditor.getContent ((MainWindow.setCurrentContent T s).noteEditor) = T ∧
    (MainWindow.setCurrentContent T s).m_wordCount = (runStarts T : Int) ∧
    wordCountQt T = runStarts T := by
  have hml := wordCountQt_eq_runStarts T
  refine ⟨?_, ?_, ?_, hml⟩ <;>
    simp [MainWindow.setCurrentContent, runBookOp, dispatchBookSignals, bookSignalHandler,
      MainWindow.contentChangedLambda, BookEditor.setContent, BookEditor.onContentChanged,
      BookEditor.setWordCount, BookEditor.getContent, NoteEditor.setContent,
      NoteEditor.getContent, List.drop_left, hml]

/-- C8: typing a value different from the current page into the page field
    fires BookEditor::pageChanged, but MainWindow::setupUI never connects
    that signal, so no MainWindow::pageChanged emission occurs and the
    backend page_changed callback (wired by qt_register_page_changed to
    MainWindow::pageChanged) receives nothing. -/
theorem C8_page_field_never_reaches_backend :
    (2 : Int) ≠ mainWindowInit.bookEditor.m_currentPage ∧
    (spinBoxEdit 2 mainWindowInit).bookEditor.emissions = [BookSignal.pageChanged 2] ∧
    (spinBoxEdit 2 mainWindowInit).emissions = [] ∧
    backendPageChangedDeliveries (spinBoxEdit 2 mainWindowInit) = [] ∧
    bookSignalHandler (BookSignal.pageChanged 2) = none :=
  ⟨by decide, by decide, by decide, by decide, rfl⟩

/-- C9, counterexample: for a handle whose window pointer is null but whose
    app pointer is not, qt_exec runs the event loop instead of returning
    early, and qt_cleanup frees the app and the handle — neither call is a
    no-op as the claim requires. -/
theorem C9_claim_counterexample :
    windowlessHandle.window = none ∧
    qt_exec (some windowlessHandle) = ExecOutcome.ranEventLoop ∧
    ExecOutcome.ranEventLoop ≠ ExecOutcome.earlyReturn (-1) ∧
    qt_cleanup (some windowlessHandle) = CleanupOutcome.freedHandle false true ∧
    CleanupOutcome.freedHandle false true ≠ CleanupOutcome.noop := by
  decide

/-- C9, amended: with a null handle every bridge call is a no-op (the
    setters and show directives return the handle unchanged, qt_exec
    returns -1, qt_cleanup returns immediately); with a handle whose
    window is null, every qt_set_* and qt_show_* call is a no-op — but
    qt_exec is guarded by the app pointer rather than the window pointer,
    and qt_cleanup still frees the remaining objects. -/
theorem C9_null_guards_amended (entries : List (List Char)) (txt : List Char)
    (k : Int) (hh : MainWindowHandle) (hw : hh.window = none) :
    (qt_set_entry_list none entries = none ∧
     qt_set_current_entry_title none txt = none ∧
     qt_set_current_content none txt = none ∧
     qt_set_current_page none k = none ∧
     qt_set_total_pages none k = none ∧
     qt_set_word_count none k = none ∧
     qt_set_password_error none txt = none ∧
     qt_show_password_error none k = none ∧
     qt_show_book_editor none = none ∧
     qt_show_note_editor none = none ∧
     qt_show_list_view none = none ∧
     qt_exec none = ExecOutcome.earlyReturn (-1) ∧
     qt_cleanup none = CleanupOutcome.noop) ∧
    (qt_set_entry_list (some hh) entries = some hh ∧
     qt_set_current_entry_title (some hh) txt = some hh ∧
     qt_set_current_content (some hh) txt = some hh ∧
     qt_set_current_page (some hh) k = some hh ∧
     qt_set_total_pages (some hh) k = some hh ∧
     qt_set_word_count (some hh) k = some hh ∧
     qt_set_password_error (some hh) txt = some hh ∧
     qt_show_password_error (some hh) k = some hh ∧
     qt_show_book_editor (some hh) = some hh ∧
     qt_show_note_editor (some hh) = some hh ∧
     qt_show_list_view (some hh) = some hh) := by
  refine ⟨⟨rfl, rfl, rfl, rfl, rfl, rfl, rfl, rfl, rfl, rfl, rfl, rfl, rfl⟩,
    ?_, ?_, ?_, ?_, ?_, ?_, ?_, ?_, rfl, rfl, rfl⟩ <;>
    simp [qt_set_entry_list, qt_set_current_entry_title, qt_set_current_content,
      qt_set_current_page, qt_set_total_pages, qt_set_word_count,
      qt_set_password_error, qt_show_password_error, bridgeSetter, hw]

/-- C9, witness: the amended theorem at the window-null handle. -/
theorem C9_null_guards_amended_witness :
    (qt_set_entry_list none [] = none ∧
     qt_set_current_entry_title none [] = none ∧
     qt_set_current_content none [] = none ∧
     qt_set_current_page none 0 = none ∧
     qt_set_total_pages none 0 = none ∧
     qt_set_word_count none 0 = none ∧
     qt_set_password_error none [] = none ∧
     qt_show_password_error none 0 = none ∧
     qt_show_book_editor none = none ∧
     qt_show_note_editor none = none ∧
     qt_show_list_view none = none ∧
     qt_exec none = ExecOutcome.earlyReturn (-1) ∧
     qt_cleanup none = CleanupOutcome.noop) ∧
    (qt_set_entry_list (some windowlessHandle) [] = some windowlessHandle ∧
     qt_set_current_entry_title (some windowlessHandle) [] = some windowlessHandle ∧
     qt_set_current_content (some windowlessHandle) [] = some windowlessHandle ∧
     qt_set_current_page (some windowlessHandle) 0 = some windowlessHandle ∧
     qt_set_total_pages (some windowlessHandle) 0 = some windowlessHandle ∧
     qt_set_word_count (some windowlessHandle) 0 = some windowlessHandle ∧
     qt_set_password_error (some windowlessHandle) [] = some windowlessHandle ∧
     qt_show_password_error (some windowlessHandle) 0 = some windowlessHandle ∧
     qt_show_book_editor (some windowlessHandle) = some windowlessHandle ∧
     qt_show_note_editor (some windowlessHandle) = some windowlessHandle ∧
     qt_show_list_view (some windowlessHandle) = some windowlessHandle) :=
  C9_null_guards_amended [] [] 0 windowlessHandle rfl

/-- C10: itemClicked and itemDoubleClicked are both wired to
    onEntryItemClicked, so a single click on row r >= 0 emits exactly one
    entrySelected(r) while a double-click gesture (which delivers both
    signals) emits it twice — more than once for one selection gesture. -/
theorem C10_click_wiring (s : MainWindowState) (r : Int) (hr : 0 ≤ r) :
    listSignalHandler (ListSignal.itemClicked r) = MainWindow.onEntryItemClicked r ∧
    listSignalHandler (ListSignal.itemDoubleClicked r) = MainWindow.onEntryItemClicked r ∧
    (singleClickGesture r s).emissions = s.emissions ++ [MainSignal.entrySelected r] ∧
    (doubleClickGesture r s).emissions =
      s.emissions ++ [MainSignal.entrySelected r, MainSignal.entrySelected r] := by
  refine ⟨rfl, rfl, ?_, ?_⟩
  · simp [singleClickGesture, listSignalHandler, MainWindow.onEntryItemClicked, hr]
  · simp [doubleClickGesture, listSignalHandler, MainWindow.onEntryItemClicked, hr]

/-- C10, witness: the wiring theorem at row 0 from the initial state. -/
theorem C10_click_wiring_witness :
    listSignalHandler (ListSignal.itemClicked 0) = MainWindow.onEntryItemClicked 0 ∧
    listSignalHandler (ListSignal.itemDoubleClicked 0) = MainWindow.onEntryItemClicked 0 ∧
    (singleClickGesture 0 mainWindowInit).emissions =
      mainWindowInit.emissions ++ [MainSignal.entrySelected 0] ∧
    (doubleClickGesture 0 mainWindowInit).emissions =
      mainWindowInit.emissions ++ [MainSignal.entrySelected 0, MainSignal.entrySelected 0] :=
  C10_click_wiring mainWindowInit 0 (by decide)

end NoteQuarry
